import Mathlib

/-!
Verification of the Manim animation-job pipeline
(`src/api/src/manim/service.py`, `ai_generator.py`) against its
natural-language specification.

The Python code is shallowly embedded: pure string manipulation
(`fix_common_manim_errors` and its regex operations) is translated into
executable Lean functions over `List Char`; external effects (the
OpenRouter completion calls, the `ruff` lint subprocess, the `manim`
render subprocess, the artifact search on the filesystem) are modelled
as oracle fields of an environment record, since the orchestrator only
branches on their results.  The orchestrator's control flow
(`ManimService.render_animation`) is translated branch by branch.
-/

/-! ## Python string primitives (`in`, `str.replace`, `split('\n')`, `'\n'.join`, …) -/

/-- Python `\s` (ASCII whitespace as used by `str.strip`, `str.split`, `re \s`). -/
def pySpace (c : Char) : Bool :=
  c = ' ' || c = '\t' || c = '\n' || c = '\r' || c = '\x0b' || c = '\x0c'

/-- Python `\w` (ASCII word character). -/
def pyWord (c : Char) : Bool :=
  c.isAlpha || c.isDigit || c = '_'

/-- Character class `[^,\)]` used by the `get_area` repair patterns. -/
def notCP (c : Char) : Bool :=
  !(c = ',' || c = ')')

/-- Character class `[\d.]` used by the `fill_opacity` / `side_length` patterns. -/
def digitDot (c : Char) : Bool :=
  c.isDigit || c = '.'

/-- Python substring test `pat in s`. -/
def csContains : List Char → List Char → Bool
  | [], pat => pat.isPrefixOf []
  | c :: t, pat => pat.isPrefixOf (c :: t) || csContains t pat

/-- `csContains` on `String`s. -/
def strContains (s pat : String) : Bool :=
  csContains s.data pat.data

/-- Python `str.replace` (all occurrences, left to right, non-overlapping),
fuel-indexed; the fuel is instantiated with the length of the subject. -/
def csReplaceFuel (pat rep : List Char) : Nat → List Char → List Char
  | 0, s => s
  | _ + 1, [] => []
  | f + 1, c :: t =>
    if pat ≠ [] ∧ pat.isPrefixOf (c :: t) then
      rep ++ csReplaceFuel pat rep f (List.drop pat.length (c :: t))
    else
      c :: csReplaceFuel pat rep f t

/-- Python `s.replace(pat, rep)`. -/
def csReplace (s pat rep : List Char) : List Char :=
  csReplaceFuel pat rep s.length s

/-- Python `code.split('\n')` (keeps empty pieces; never returns `[]`). -/
def splitNl : List Char → List (List Char)
  | [] => [[]]
  | c :: t =>
    match splitNl t with
    | [] => [[c]]
    | h :: r => if c = '\n' then [] :: h :: r else (c :: h) :: r

/-- Python `'\n'.join(lines)`. -/
def joinNl : List (List Char) → List Char
  | [] => []
  | [l] => l
  | l :: ls => l ++ '\n' :: joinNl ls

/-- Python `', '.join(parts)`. -/
def joinCommaSp : List (List Char) → List Char
  | [] => []
  | [l] => l
  | l :: ls => l ++ ',' :: ' ' :: joinCommaSp ls

/-- `itertools`-free flat map, used to model the per-line rewrite loops that
append one or two lines per input line. -/
def concatMapL (f : α → List β) : List α → List β
  | [] => []
  | a :: t => f a ++ concatMapL f t

/-- Python `str.strip()` (whitespace from both ends). -/
def pyStrip (s : List Char) : List Char :=
  ((s.dropWhile pySpace).reverse.dropWhile pySpace).reverse

/-- Python `str.rstrip(',)')`. -/
def pyRstripCP (s : List Char) : List Char :=
  (s.reverse.dropWhile (fun c => c = ',' || c = ')')).reverse

/-- `len(line) - len(line.lstrip())`: the count of leading whitespace. -/
def indentOf (line : List Char) : Nat :=
  (line.takeWhile pySpace).length

/-- `' ' * n`. -/
def indentStr (n : Nat) : List Char :=
  List.replicate n ' '

/-- Python `str.lower()` (ASCII). -/
def toLowerCs (s : List Char) : List Char :=
  s.map Char.toLower

/-- Match a literal at the head of the subject, returning the remainder. -/
def litP (lit s : List Char) : Option (List Char) :=
  if lit.isPrefixOf s then some (s.drop lit.length) else none

/-! ## The regex fragments of `fix_common_manim_errors`

`(\w+)\.<f>\s*\(\s*lambda\s+(\w+)\s*:\s*([^,\)]+)` (search, groups) and
`<f>\s*\(\s*lambda\s+\w+\s*:[^,\)]+` (sub) for `f` ∈ `{get_area,
get_riemann_rectangles}`, plus `class \w+Scene\(Scene\)` and the
`color= / fill_opacity= / side_length=` capture patterns.  Each pattern is a
fixed token sequence; greedy matching with the one backtracking point
(`\s*([^,\)]+)` after the colon) is implemented directly. -/

/-- Match `<fname>\s*\(\s*lambda\s+(\w+)\s*\s*:` at the head of `s`;
returns the lambda-variable group and the remainder after the colon. -/
def gaTail (fname s : List Char) : Option (List Char × List Char) :=
  match litP fname s with
  | none => none
  | some r1 =>
    match r1.dropWhile pySpace with
    | '(' :: r3 =>
      match litP "lambda".data (r3.dropWhile pySpace) with
      | none => none
      | some r5 =>
        if r5.takeWhile pySpace = [] then none
        else
          let r6 := r5.dropWhile pySpace
          let v := r6.takeWhile pyWord
          if v = [] then none
          else
            match (r6.dropWhile pyWord).dropWhile pySpace with
            | ':' :: r8 => some (v, r8)
            | _ => none
    | _ => none

/-- The `\s*([^,\)]+)` part after the colon of the search pattern, with
Python's backtracking: `\s*` is greedy but gives one character back when the
class would otherwise be empty. -/
def postColonP1 (s : List Char) : Option (List Char) :=
  let sp := s.takeWhile pySpace
  let rest := s.dropWhile pySpace
  match rest with
  | [] =>
    match sp.getLast? with
    | some c => some [c]
    | none => none
  | c :: _ =>
    if c = ',' || c = ')' then
      match sp.getLast? with
      | some d => some [d]
      | none => none
    else some (rest.takeWhile notCP)

/-- Match `(\w+)\.<fname>\s*\(\s*lambda\s+(\w+)\s*:\s*([^,\)]+)` at the head
of `s`; groups `(receiver, lambda variable, lambda body)`. -/
def gaP1At (fname s : List Char) : Option (List Char × List Char × List Char) :=
  let w := s.takeWhile pyWord
  if w = [] then none
  else
    match s.dropWhile pyWord with
    | '.' :: r =>
      match gaTail fname r with
      | some (v, r8) => (postColonP1 r8).map (fun g3 => (w, v, g3))
      | none => none
    | _ => none

/-- `re.search` for the `get_area` pattern: first position at which
`gaP1At` matches. -/
def gaSearch (fname : List Char) : List Char → Option (List Char × List Char × List Char)
  | [] => none
  | c :: t =>
    match gaP1At fname (c :: t) with
    | some r => some r
    | none => gaSearch fname (t : List Char)

/-- Match `<fname>\s*\(\s*lambda\s+\w+\s*:[^,\)]+` at the head of `s`;
returns the matched length (for `re.sub`). -/
def gaP2At (fname s : List Char) : Option Nat :=
  match gaTail fname s with
  | none => none
  | some (_, r8) =>
    let cls := r8.takeWhile notCP
    if cls = [] then none else some (s.length - r8.length + cls.length)

/-- `re.sub(pattern, rep, s)` for a matcher returning consumed lengths:
replace every non-overlapping occurrence, scanning left to right. -/
def reSubFuel (m : List Char → Option Nat) (rep : List Char) : Nat → List Char → List Char
  | 0, s => s
  | _ + 1, [] => []
  | f + 1, c :: t =>
    match m (c :: t) with
    | some n => rep ++ reSubFuel m rep f (List.drop n (c :: t))
    | none => c :: reSubFuel m rep f t

/-- `re.sub` over the whole subject. -/
def reSubAll (m : List Char → Option Nat) (rep s : List Char) : List Char :=
  reSubFuel m rep s.length s

/-- Match `class \w+Scene\(Scene\)` at the head of `s` (matched length). -/
def classSceneAt (s : List Char) : Option Nat :=
  match litP "class ".data s with
  | none => none
  | some r =>
    let w := r.takeWhile pyWord
    if 6 ≤ w.length && List.isSuffixOf "Scene".data w then
      match litP "(Scene)".data (r.drop w.length) with
      | some _ => some (6 + w.length + 7)
      | none => none
    else none

/-- Match `<key>\s*=\s*(<valPred>+)` at the head of `s`, returning the
captured value group. -/
def kvMatchAt (key : List Char) (valPred : Char → Bool) (s : List Char) : Option (List Char) :=
  match litP key s with
  | none => none
  | some r =>
    match r.dropWhile pySpace with
    | '=' :: r3 =>
      let r4 := r3.dropWhile pySpace
      let v := r4.takeWhile valPred
      if v = [] then none else some v
    | _ => none

/-- `re.search` for a `<key>=<value>` pattern. -/
def reSearchKV (key : List Char) (valPred : Char → Bool) : List Char → Option (List Char)
  | [] => none
  | c :: t =>
    match kvMatchAt key valPred (c :: t) with
    | some v => some v
    | none => reSearchKV key valPred (t : List Char)

/-! ## `ManimService.fix_common_manim_errors` (service.py, lines 556-812) -/

/-- One line of the `get_area` / `get_riemann_rectangles` repair loop: a line
containing the call name and `lambda` on which the search pattern matches is
replaced by a graph-construction line followed by the `re.sub`-rewritten call
line; every other line is kept. -/
def gaFixLine (fname subRep line : List Char) : List (List Char) :=
  if csContains line fname && csContains line "lambda".data then
    match gaSearch fname line with
    | some (ax, v, g3) =>
      [indentStr (indentOf line) ++ "graph = ".data ++ ax ++ ".plot(lambda ".data ++ v
         ++ ": ".data ++ pyRstripCP (pyStrip g3) ++ ")".data,
       reSubAll (gaP2At fname) subRep line]
    | none => [line]
  else [line]

/-- The `get_area` / `get_riemann_rectangles` repair branch. -/
def gaBranch (fname subRep code : List Char) : List Char :=
  joinNl (concatMapL (gaFixLine fname subRep) (splitNl code))

/-- One line of the missing-numpy-import repair: `import numpy as np` is
appended after every manim import line. -/
def numpyFixLine (line : List Char) : List (List Char) :=
  if csContains line "from manim import".data || csContains line "import manim".data then
    [line, "import numpy as np".data]
  else [line]

/-- The missing-numpy-import repair branch. -/
def numpyBranch (code : List Char) : List Char :=
  joinNl (concatMapL numpyFixLine (splitNl code))

/-- `any('import numpy' in line or 'from numpy' in line for line in lines)`. -/
def hasNumpy (code : List Char) : Bool :=
  (splitNl code).any fun l =>
    csContains l "import numpy".data || csContains l "from numpy".data

/-- The `color_fixes` table (insertion order of the Python dict). -/
def colorPairs : List (List Char × List Char) :=
  [("GOLD".data, "YELLOW".data), ("GOLD_A".data, "YELLOW".data),
   ("GOLD_B".data, "YELLOW".data), ("GOLD_C".data, "YELLOW".data),
   ("GOLD_D".data, "YELLOW".data), ("GOLD_E".data, "YELLOW".data),
   ("TEAL".data, "BLUE_C".data), ("MAROON".data, "RED_C".data),
   ("PURPLE".data, "PURPLE_C".data)]

/-- The `method_fixes` table. -/
def methodPairs : List (List Char × List Char) :=
  [("ShowCreation".data, "Create".data),
   ("ShowCreationThenDestruction".data, "Create".data),
   ("ShowCreationThenFadeOut".data, "Create".data),
   ("ShowIncreasingSubsets".data, "Create".data),
   ("ShowSubmobjectsOneByOne".data, "Create".data),
   ("FadeInFromDown".data, "FadeIn".data),
   ("FadeOutAndShift".data, "FadeOut".data),
   ("FadeInFromLarge".data, "FadeIn".data),
   ("GrowFromCenter".data, "GrowFromPoint".data)]

/-- `for wrong, right in pairs: if wrong in code: code = code.replace(wrong, right)`. -/
def applyPairs (pairs : List (List Char × List Char)) (code : List Char) : List Char :=
  pairs.foldl (fun acc p => if csContains acc p.1 then csReplace acc p.1 p.2 else acc) code

/-- Wrap un-scoped code in a `MainScene` class (the `no Scene class found`
fall-back of the missing-`MainScene` repair). -/
def wrapMainScene (code : List Char) : List Char :=
  "from manim import *\n\nclass MainScene(Scene):\n    def construct(self):\n".data ++
    joinNl ((splitNl code).map fun l =>
      if pyStrip l ≠ [] then "        ".data ++ l else l)

/-- The missing-`MainScene` repair branch: rename any `\w+Scene(Scene)` class,
or wrap the code if that substitution changed nothing. -/
def mainSceneBranch (code : List Char) : List Char :=
  let fixed := reSubAll classSceneAt "class MainScene(Scene)".data code
  if fixed = code then wrapMainScene code else fixed

/-- One line of the `Rectangle` constructor repair. -/
def rectFixLine (line : List Char) : List Char :=
  if csContains line "Rectangle(".data &&
      (csContains line "bottom_left".data || csContains line "bottom_right".data ||
       csContains line "top_left".data || csContains line "top_right".data) then
    let ps := ["width=1".data, "height=0.5".data]
      ++ (match reSearchKV "color".data pyWord line with
          | some v => ["color=".data ++ v]
          | none => [])
      ++ (match reSearchKV "fill_opacity".data digitDot line with
          | some v => ["fill_opacity=".data ++ v]
          | none => [])
    indentStr (indentOf line) ++ "Rectangle(".data ++ joinCommaSp ps ++ ")".data
  else line

/-- The `Rectangle` constructor repair branch. -/
def rectBranch (code : List Char) : List Char :=
  joinNl ((splitNl code).map rectFixLine)

/-- One line of the `Square` constructor repair. -/
def squareFixLine (line : List Char) : List Char :=
  if csContains line "Square(".data then
    if csContains line "width".data || csContains line "height".data ||
        csContains line "radius".data then
      let ps :=
        (match reSearchKV "side_length".data digitDot line with
         | some v => ["side_length=".data ++ v]
         | none => [])
        ++ (match reSearchKV "color".data pyWord line with
            | some v => ["color=".data ++ v]
            | none => [])
        ++ (match reSearchKV "fill_opacity".data digitDot line with
            | some v => ["fill_opacity=".data ++ v]
            | none => [])
      indentStr (indentOf line) ++ "Square(".data ++ joinCommaSp ps ++ ")".data
    else line
  else line

/-- The `Square` branch returns the rewritten code only if some line changed. -/
def fixSquareStep (code e : List Char) : List Char :=
  if csContains e "Square".data && csContains e "unexpected keyword argument".data then
    let newLines := (splitNl code).map squareFixLine
    if newLines ≠ splitNl code then joinNl newLines else code
  else code

/-- The `Rectangle` branch and everything after it. -/
def fixRectStep (code e : List Char) : List Char :=
  if csContains e "Rectangle".data &&
      (csContains e "bottom_left".data || csContains e "bottom_right".data ||
       csContains e "unexpected keyword argument".data) then
    rectBranch code
  else fixSquareStep code e

/-- The missing-`MainScene` branch and everything after it. -/
def fixSceneStep (code e : List Char) : List Char :=
  if csContains e "MainScene".data && csContains e "not defined".data &&
      !csContains code "class MainScene".data then
    mainSceneBranch code
  else fixRectStep code e

/-- The `AttributeError` method-rename branch and everything after it. -/
def fixMethodStep (code e : List Char) : List Char :=
  if csContains e "AttributeError".data then
    let fc := applyPairs methodPairs code
    if fc ≠ code then fc else fixSceneStep code e
  else fixSceneStep code e

/-- The color-rename branch and everything after it. -/
def fixColorStep (code e : List Char) : List Char :=
  if csContains (toLowerCs e) "color".data || csContains e "attribute".data then
    let fc := applyPairs colorPairs code
    if fc ≠ code then fc else fixMethodStep code e
  else fixMethodStep code e

/-- `ManimService.fix_common_manim_errors` on character lists: the ordered
chain of pattern-repair rules keyed by substrings of the diagnostic text. -/
def fixCommonChars (code e : List Char) : List Char :=
  if csContains e "get_area".data && csContains e "'function' object has no attribute".data then
    gaBranch "get_area".data "get_area(graph".data code
  else if csContains e "get_riemann_rectangles".data && csContains e "'function' object".data then
    gaBranch "get_riemann_rectangles".data "get_riemann_rectangles(graph".data code
  else if (csContains e "np.".data || csContains e "numpy".data) &&
      csContains e "NameError".data && !hasNumpy code then
    numpyBranch code
  else fixColorStep code e

/-- `ManimService.fix_common_manim_errors` (the Pattern Repair Engine). -/
def fix_common_manim_errors (code errorMsg : String) : String :=
  ⟨fixCommonChars code.data errorMsg.data⟩

/-! ## Code generation (`ai_generator.py`) and the orchestrator (`service.py`)

External effects are oracles: the two OpenRouter completion calls of
`generate_ai_manim_code`, the lint subprocess, the render-mode repair call,
the render subprocess attempts (indexed by attempt number within one job) and
the artifact search.  The orchestrator only branches on their results, so its
control flow is embedded exactly. -/

/-- `return code if code else None`: Python truthiness of the extracted code. -/
def truthyOpt : Option String → Option String
  | some s => if s = "" then none else some s
  | none => none

/-- `generate_openrouter_manim_code`: returns `None` without an API key,
otherwise the (truthiness-filtered) provider response. -/
def openrouter_call (apiKey : Bool) (resp : Option String) : Option String :=
  if apiKey then truthyOpt resp else none

/-- `refine_code_with_openrouter`: returns `None` without an API key,
otherwise the (truthiness-filtered) provider response. -/
def openrouter_refine (apiKey : Bool) (resp : Option String) : Option String :=
  if apiKey then truthyOpt resp else none

/-- Oracle bundle for one invocation of `generate_ai_manim_code`:
the provider responses for the primary and fall-back prompt paths, the lint
subprocess result `(success, errors)` per code text, and the provider
response of the lint-mode repair call per `(code, errors)`. -/
structure GenEnv where
  primary : Option String
  fallback : Option String
  lint : String → Bool × String
  lintFix : String → String → Option String

/-- The bounded lint-and-repair loop of `generate_ai_manim_code`
(`MAX_LINT_RETRIES = 2`): lint; on failure ask the provider for a fix; keep
the fix and iterate if one was produced, otherwise stop.  The final code is
returned whether or not it passed lint. -/
def lint_repair_loop (apiKey : Bool) (g : GenEnv) : Nat → String → String
  | 0, code => code
  | n + 1, code =>
    if (g.lint code).1 then code
    else
      match openrouter_refine apiKey (g.lintFix code (g.lint code).2) with
      | some f => lint_repair_loop apiKey g n f
      | none => code

/-- `generate_ai_manim_code`: primary prompt path, one fall-back prompt path
(only with an API key), then the lint-repair loop; `(None, False)` when no
code was produced, `(code, True)` otherwise. -/
def generate_ai_manim_code (apiKey : Bool) (g : GenEnv) (_concept : String) :
    Option String × Bool :=
  let code0 := openrouter_call apiKey g.primary
  let code1 :=
    match code0 with
    | none => if apiKey then openrouter_call apiKey g.fallback else none
    | some c => some c
  match code1 with
  | some c => (some (lint_repair_loop apiKey g 2 c), true)
  | none => (none, false)

mutual

/-- State machine for `' '.join(text.strip().split())`, before the first word. -/
def sanStart : List Char → List Char
  | [] => []
  | c :: t => if pySpace c then sanStart t else c :: sanWord t

/-- State machine for `' '.join(text.strip().split())`, inside a word. -/
def sanWord : List Char → List Char
  | [] => []
  | c :: t => if pySpace c then sanGap t else c :: sanWord t

/-- State machine for `' '.join(text.strip().split())`, in a gap after a word. -/
def sanGap : List Char → List Char
  | [] => []
  | c :: t => if pySpace c then sanGap t else ' ' :: c :: sanWord t

end

/-- `ManimService.sanitize_input`: `' '.join(text.strip().split())` —
whitespace runs collapse to single spaces, ends are trimmed. -/
def sanitize_input (text : String) : String :=
  ⟨sanStart text.data⟩

/-- `ManimService.generate_manim_code`: sanitize, generate, and return
`(None, False)` unless the generated code is truthy. -/
def generate_manim_code (apiKey : Bool) (g : GenEnv) (concept : String) :
    Option String × Bool :=
  match generate_ai_manim_code apiKey g (sanitize_input concept) with
  | (some c, usedAi) => if c = "" then (none, false) else (some c, usedAi)
  | (none, _) => (none, false)

/-- Outcome of one `_render_in_thread` call: success, or failure with the
`error` and `details` fields of its result dictionary (nonzero exit, timeout
and thread exception all produce both fields). -/
inductive RenderOutcome where
  | ok : RenderOutcome
  | fail (error : String) (details : String) : RenderOutcome
deriving DecidableEq, Repr

/-- The dictionary returned by `render_animation` / `render_multiple_animations`
(absent keys are `none`). -/
structure RenderResult where
  success : Bool
  error : Option String := none
  details : Option String := none
  video_url : Option String := none
  code : Option String := none
  used_ai : Option Bool := none
  render_quality : Option String := none
  concept : Option String := none
deriving DecidableEq, Repr

/-- Stages of one job, recorded in order of occurrence (ghost trace for
stating the escalation-chain claims). -/
inductive Stage where
  | generate : Stage
  | render : Stage
  | patternFix : Stage
  | aiFix : Stage
  | regenerate : Stage
deriving DecidableEq, Repr

/-- Environment of one `render_animation` call: the module-level API-key
presence, the random job filename, the configured default quality, oracle
bundles for the initial generation and the tier-3 regeneration, the provider
response of the render-mode repair call per `(code, details)`, the render
subprocess outcomes indexed by attempt number, and whether the artifact
search locates the produced video. -/
structure Env where
  apiKey : Bool
  filename : String
  defaultQuality : String
  gen1 : GenEnv
  gen2 : GenEnv
  aiFixResp : String → String → Option String
  renders : Nat → RenderOutcome
  videoFound : Bool

/-- `{'success': False, 'error': 'Failed to generate code template', ...}`. -/
def genFailResult (q : String) : RenderResult :=
  { success := false, error := some "Failed to generate code template",
    render_quality := some q }

/-- `{'success': False, **render_result, 'render_quality': quality}`. -/
def renderFailResult (e d q : String) : RenderResult :=
  { success := false, error := some e, details := some d, render_quality := some q }

/-- `{'success': False, 'error': 'Generated video file not found', ...}`. -/
def notFoundResult (q : String) : RenderResult :=
  { success := false, error := some "Generated video file not found",
    render_quality := some q }

/-- The success dictionary of `render_animation`. -/
def successResult (filename code : String) (usedAi : Bool) (q : String) : RenderResult :=
  { success := true, video_url := some ("/manim/videos/" ++ filename ++ ".mp4"),
    code := some code, used_ai := some usedAi, render_quality := some q }

/-- The outer-`except` dictionary (`'error': 'Internal server error'`). -/
def internalErrorResult (d q : String) : RenderResult :=
  { success := false, error := some "Internal server error", details := some d,
    render_quality := some q }

/-- The ordered artifact search over known output layouts plus the recursive
scan, collapsed to its outcome: found (success dictionary) or not
(`Generated video file not found`). -/
def locateVideo (env : Env) (code : String) (usedAi : Bool) (q : String) : RenderResult :=
  if env.videoFound then successResult env.filename code usedAi q
  else notFoundResult q

/-- Tier 3: regenerate from scratch (`new_code, _ = generate_manim_code(...)`),
retry the render once if code was produced, else return the previous failure.
`idx` is the attempt number of the retry; `(e, d)` the previous failure. -/
def regenStep (env : Env) (concept q : String) (idx : Nat) (e d : String)
    (usedAi : Bool) : RenderResult × List Stage :=
  match generate_manim_code env.apiKey env.gen2 concept with
  | (some nc, _) =>
    match env.renders idx with
    | .ok => (locateVideo env nc usedAi q, [.regenerate, .render])
    | .fail e2 d2 => (renderFailResult e2 d2 q, [.regenerate, .render])
  | (none, _) => (renderFailResult e d q, [.regenerate])

/-- Tier 2 after a successful pattern change whose render retry failed with
`(e1, d1)`: ask the provider for a render-mode fix of the pattern-fixed code;
retry only if it produced code different from it, else fail with `(e1, d1)`;
on a failed retry escalate to tier 3 (attempt index 3). -/
def tierAiAfterPattern (env : Env) (concept q fixedCode : String) (usedAi : Bool)
    (e1 d1 : String) : RenderResult × List Stage :=
  match openrouter_refine env.apiKey (env.aiFixResp fixedCode d1) with
  | some ai =>
    if ai ≠ fixedCode then
      match env.renders 2 with
      | .ok => (locateVideo env ai usedAi q, [.aiFix, .render])
      | .fail e2 d2 =>
        let rt := regenStep env concept q 3 e2 d2 usedAi
        (rt.1, [.aiFix, .render] ++ rt.2)
    else (renderFailResult e1 d1 q, [.aiFix])
  | none => (renderFailResult e1 d1 q, [.aiFix])

/-- Tier 2 when the pattern repair changed nothing: ask the provider for a
render-mode fix of the original code against the first failure `(e0, d0)`;
retry if any code was produced (attempt 1), on a failed retry escalate to
tier 3 (attempt 2); with no code fail with `(e0, d0)`. -/
def tierAiDirect (env : Env) (concept q code : String) (usedAi : Bool)
    (e0 d0 : String) : RenderResult × List Stage :=
  match openrouter_refine env.apiKey (env.aiFixResp code d0) with
  | some ai =>
    match env.renders 1 with
    | .ok => (locateVideo env ai usedAi q, [.aiFix, .render])
    | .fail e1 d1 =>
      let rt := regenStep env concept q 2 e1 d1 usedAi
      (rt.1, [.aiFix, .render] ++ rt.2)
  | none => (renderFailResult e0 d0 q, [.aiFix])

/-- `{'low': '-ql', 'medium': '-qm', 'high': '-qh'}[quality]`: `none` models
the `KeyError` raised on any other key. -/
def qualityFlag (q : String) : Option String :=
  if q = "low" then some "-ql"
  else if q = "medium" then some "-qm"
  else if q = "high" then some "-qh"
  else none

/-- `render_animation` from the point where code is in hand (service.py line
227 onward): quality-flag lookup (a failed lookup is the `KeyError` caught by
the outer handler), initial render attempt (attempt 0), then the escalation
chain — which is entered only when `used_ai` is true. -/
def renderWithCode (env : Env) (concept q code : String) (usedAi : Bool) :
    RenderResult × List Stage :=
  match qualityFlag q with
  | none => (internalErrorResult ("'" ++ q ++ "'") q, [])
  | some _ =>
    match env.renders 0 with
    | .ok => (locateVideo env code usedAi q, [.render])
    | .fail e0 d0 =>
      if usedAi then
        let fixed := fix_common_manim_errors code d0
        if fixed ≠ code then
          match env.renders 1 with
          | .ok => (locateVideo env fixed usedAi q, [.render, .patternFix, .render])
          | .fail e1 d1 =>
            let rt := tierAiAfterPattern env concept q fixed usedAi e1 d1
            (rt.1, [.render, .patternFix, .render] ++ rt.2)
        else
          let rt := tierAiDirect env concept q code usedAi e0 d0
          (rt.1, [.render, .patternFix] ++ rt.2)
      else (renderFailResult e0 d0 q, [.render])

/-- The body of `render_animation` after quality resolution: generate code,
fail with `Failed to generate code template` if none, else continue with
`renderWithCode`. -/
def renderPipeline (env : Env) (concept q : String) : RenderResult × List Stage :=
  match generate_manim_code env.apiKey env.gen1 concept with
  | (none, _) => (genFailResult q, [.generate])
  | (some code, usedAi) =>
    let rt := renderWithCode env concept q code usedAi
    (rt.1, .generate :: rt.2)

/-- Quality validation: invalid values and `None` fall back to the configured
default (`quality or self.default_quality` for members of the valid set). -/
def resolveQuality (defaultQuality : String) : Option String → String
  | none => defaultQuality
  | some s => if s = "low" || s = "medium" || s = "high" then s else defaultQuality

/-- The service-level mutable state: the active-render registry set and the
set of existing per-job temporary working directories. -/
structure SvcState where
  activeRenders : List String
  tempDirs : List String
deriving DecidableEq, Repr

/-- Decidable membership on the registry list. -/
def listHas (l : List String) (x : String) : Bool :=
  l.any fun y => y = x

/-- Set-insert on the registry list. -/
def insertOnce (l : List String) (x : String) : List String :=
  if listHas l x then l else x :: l

/-- `self.temp_dir / filename`. -/
def tmpDirOf (filename : String) : String :=
  "tmp/" ++ filename

/-- `ManimService.render_animation`: resolve quality, register the job and
create its working directory, run the pipeline, and — on every exit path
(success, every failure return, and the `KeyError` propagating to the outer
handler) — remove the working directory and unregister the job (the
`finally` block plus the outer `except`). -/
def render_animation (env : Env) (st : SvcState) (concept : String)
    (quality : Option String) : RenderResult × List Stage × SvcState :=
  let q := resolveQuality env.defaultQuality quality
  let fn := env.filename
  let st1 : SvcState :=
    { activeRenders := insertOnce st.activeRenders fn,
      tempDirs := insertOnce st.tempDirs (tmpDirOf fn) }
  let rt := renderPipeline env concept q
  (rt.1, rt.2,
    { activeRenders := st1.activeRenders.filter (fun x => x ≠ fn),
      tempDirs := st1.tempDirs.filter (fun x => x ≠ tmpDirOf fn) })

/-- Per-item wrapping of `render_multiple_animations`: an exception becomes a
`success=False` entry with the exception text, a result is tagged with its
concept. -/
def tagOutcome (c : String) (r : Except String RenderResult) : RenderResult :=
  match r with
  | .error e =>
    { success := false, error := some "Failed to generate animation",
      details := some e, concept := some c }
  | .ok res => { res with concept := some c }

/-- `ManimService.render_multiple_animations`: run every concept (the `run`
oracle is one job's outcome: a result or a raised exception, as collected by
`asyncio.gather(..., return_exceptions=True)`), then wrap each outcome with
its originating concept. -/
def render_multiple_animations (concepts : List String)
    (run : String → Except String RenderResult) : List RenderResult :=
  ((concepts.map run).zip concepts).map fun p => tagOutcome p.2 p.1

/-- Does the `re.sub`-style matcher match at some position of the subject?
(Used to relate the search pattern and the substitution pattern of the
`get_area` repair.) -/
def p2Exists (m : List Char → Option Nat) : List Char → Bool
  | [] => (m []).isSome
  | c :: t => (m (c :: t)).isSome || p2Exists m t

/-! ## Concrete environments for the closed counterexamples and witnesses -/

/-- Empty service state. -/
def st0 : SvcState := { activeRenders := [], tempDirs := [] }

/-- Run for C1's counterexample: generation succeeds, the first render fails
with a color diagnostic, the pattern repair changes the code (GOLD), the
retry fails, and the render-mode AI repair call produces no code. -/
def envC1 : Env :=
  { apiKey := true, filename := "job1", defaultQuality := "low",
    gen1 := { primary := some "from manim import *\nGOLD", fallback := none,
              lint := fun _ => (true, ""), lintFix := fun _ _ => none },
    gen2 := { primary := some "from manim import *\nGOLD", fallback := none,
              lint := fun _ => (true, ""), lintFix := fun _ _ => none },
    aiFixResp := fun _ _ => none,
    renders := fun n => if n = 0 then .fail "Failed to generate animation" "color error"
                        else .fail "E1" "D1",
    videoFound := false }

/-- Environment for C1's witness run (full escalation: pattern repair changes
nothing, AI repair produces code, every render attempt fails). -/
def envC1w : Env :=
  { apiKey := true, filename := "job1w", defaultQuality := "low",
    gen1 := { primary := some "x = 1", fallback := none,
              lint := fun _ => (true, ""), lintFix := fun _ _ => none },
    gen2 := { primary := some "x = 3", fallback := none,
              lint := fun _ => (true, ""), lintFix := fun _ _ => none },
    aiFixResp := fun _ _ => some "x = 2",
    renders := fun n =>
      if n = 0 then .fail "E0" "D0"
      else if n = 1 then .fail "E1" "D1"
      else .fail "E2" "D2",
    videoFound := false }

/-- Environment for C2's witness run (first render attempt fails). -/
def envC2 : Env :=
  { apiKey := true, filename := "job2", defaultQuality := "low",
    gen1 := { primary := some "x = 1", fallback := none,
              lint := fun _ => (true, ""), lintFix := fun _ _ => none },
    gen2 := { primary := none, fallback := none,
              lint := fun _ => (true, ""), lintFix := fun _ _ => none },
    aiFixResp := fun _ _ => none,
    renders := fun _ => .fail "E0" "D0",
    videoFound := false }

/-- Environment for C3's counterexample: no code-completion provider
configured (no API key). -/
def envC3 : Env :=
  { apiKey := false, filename := "job3", defaultQuality := "low",
    gen1 := { primary := none, fallback := none,
              lint := fun _ => (true, ""), lintFix := fun _ _ => none },
    gen2 := { primary := none, fallback := none,
              lint := fun _ => (true, ""), lintFix := fun _ _ => none },
    aiFixResp := fun _ _ => none,
    renders := fun _ => .ok,
    videoFound := true }

/-- Environment for C4's counterexample: the static analyzer rejects every
code text and the lint-mode repair call produces nothing, yet rendering is
attempted and succeeds. -/
def envC4 : Env :=
  { apiKey := true, filename := "job4", defaultQuality := "low",
    gen1 := { primary := some "X = GOLD", fallback := none,
              lint := fun _ => (false, "E999 syntax error"), lintFix := fun _ _ => none },
    gen2 := { primary := none, fallback := none,
              lint := fun _ => (false, "E999 syntax error"), lintFix := fun _ _ => none },
    aiFixResp := fun _ _ => none,
    renders := fun _ => .ok,
    videoFound := true }

/-- Environment for C4's witness run. -/
def envC4w : Env :=
  { apiKey := true, filename := "job4w", defaultQuality := "low",
    gen1 := { primary := some "Y = 1", fallback := none,
              lint := fun _ => (false, "E999"), lintFix := fun _ _ => none },
    gen2 := { primary := none, fallback := none,
              lint := fun _ => (true, ""), lintFix := fun _ _ => none },
    aiFixResp := fun _ _ => none,
    renders := fun _ => .fail "E0" "D0",
    videoFound := false }

/-- Environment for C5's witness-free theorem instantiations and C6's
witness: a fully successful run. -/
def envOk : Env :=
  { apiKey := true, filename := "jobok", defaultQuality := "low",
    gen1 := { primary := some "from manim import *", fallback := none,
              lint := fun _ => (true, ""), lintFix := fun _ _ => none },
    gen2 := { primary := none, fallback := none,
              lint := fun _ => (true, ""), lintFix := fun _ _ => none },
    aiFixResp := fun _ _ => none,
    renders := fun _ => .ok,
    videoFound := true }

/-- Environment for C10's witness: invalid configured default quality. -/
def envC10 : Env :=
  { apiKey := true, filename := "job10", defaultQuality := "ultra",
    gen1 := { primary := some "x = 1", fallback := none,
              lint := fun _ => (true, ""), lintFix := fun _ _ => none },
    gen2 := { primary := none, fallback := none,
              lint := fun _ => (true, ""), lintFix := fun _ _ => none },
    aiFixResp := fun _ _ => none,
    renders := fun _ => .ok,
    videoFound := true }

/-- Job runner for C9's witness: `"bad"` raises, everything else succeeds. -/
def runC9 : String → Except String RenderResult :=
  fun c => if c = "bad" then .error "boom" else .ok { success := true }

/-- Second job runner for C9's witness (agrees with `runC9` on `"bad"`). -/
def runC9b : String → Except String RenderResult :=
  fun c => if c = "bad" then .error "boom" else .ok { success := false }

/-! ## Helper lemmas -/

theorem truthyOpt_ne (o : Option String) (a : String) (h : truthyOpt o = some a) :
    a ≠ "" := by
  rcases o with _ | s
  · simp [truthyOpt] at h
  · by_cases hs : s = ""
    · simp [truthyOpt, hs] at h
    · simp [truthyOpt, hs] at h
      exact h ▸ hs

theorem openrouter_call_ne (k : Bool) (r : Option String) (a : String)
    (h : openrouter_call k r = some a) : a ≠ "" := by
  unfold openrouter_call at h
  rcases k with _ | _
  · simp at h
  · exact truthyOpt_ne r a h

theorem openrouter_refine_ne (k : Bool) (r : Option String) (a : String)
    (h : openrouter_refine k r = some a) : a ≠ "" := by
  unfold openrouter_refine at h
  rcases k with _ | _
  · simp at h
  · exact truthyOpt_ne r a h

theorem lint_loop_ne (k : Bool) (g : GenEnv) :
    ∀ (n : Nat) (code : String), code ≠ "" → lint_repair_loop k g n code ≠ "" := by
  intro n
  induction n with
  | zero => intro code h; exact h
  | succ n ih =>
    intro code h
    unfold lint_repair_loop
    by_cases hl : (g.lint code).1
    · simp [hl, h]
    · simp [hl]
      rcases hr : openrouter_refine k (g.lintFix code (g.lint code).2) with _ | f
      · exact h
      · exact ih f (openrouter_refine_ne _ _ _ hr)

theorem gen_ai_cases (k : Bool) (g : GenEnv) (c : String) :
    generate_ai_manim_code k g c = (none, false) ∨
      ∃ s, generate_ai_manim_code k g c = (some s, true) ∧ s ≠ "" := by
  unfold generate_ai_manim_code
  rcases h0 : openrouter_call k g.primary with _ | p
  · simp only [h0]
    rcases hk : k with _ | _
    · left; rfl
    · rcases h1 : openrouter_call true g.fallback with _ | q
      · left; rfl
      · right
        exact ⟨_, rfl, lint_loop_ne _ _ _ _ (openrouter_call_ne _ _ _ h1)⟩
  · simp only [h0]
    right
    exact ⟨_, rfl, lint_loop_ne _ _ _ _ (openrouter_call_ne _ _ _ h0)⟩

theorem generate_cases (k : Bool) (g : GenEnv) (c : String) :
    generate_manim_code k g c = (none, false) ∨
      ∃ s, generate_manim_code k g c = (some s, true) ∧ s ≠ "" := by
  unfold generate_manim_code
  rcases gen_ai_cases k g (sanitize_input c) with h | ⟨s, h, hs⟩
  · rw [h]
    left
    rfl
  · rw [h]
    right
    exact ⟨s, by simp [hs], hs⟩

theorem generate_code_ne (k : Bool) (g : GenEnv) (c s : String)
    (h : (generate_manim_code k g c).1 = some s) : s ≠ "" := by
  rcases generate_cases k g c with hg | ⟨t, hg, ht⟩ <;> rw [hg] at h
  · simp at h
  · simp at h; exact h ▸ ht

theorem generate_used_of_code (k : Bool) (g : GenEnv) (c s : String)
    (h : (generate_manim_code k g c).1 = some s) :
    (generate_manim_code k g c).2 = true := by
  rcases generate_cases k g c with hg | ⟨t, hg, ht⟩
  · rw [hg] at h
    simp at h
  · rw [hg]

theorem listHas_filter_ne (l : List String) (a : String) :
    listHas (l.filter fun x => x ≠ a) a = false := by
  induction l with
  | nil => rfl
  | cons h t ih =>
    by_cases hx : h = a
    · simp only [List.filter_cons, hx]
      simp only [ne_eq, not_true_eq_false, decide_False, Bool.false_eq_true, if_false]
      exact ih
    · simp only [List.filter_cons, ne_eq, hx, not_false_eq_true, decide_True, if_true, listHas,
        List.any_cons]
      have := ih
      simp only [listHas] at this
      simp [this, hx]

/-! ## C5: resource cleanup -/

/-- C5.  After every call to `renderAnimation` — success or failure, including
the generation-failure return, every escalation-tier failure return, the
missing-artifact return, and the internal-error (`KeyError`) path — the job's
working directory is no longer in the set of existing directories and the
job's id is no longer a member of the active-render registry: the `finally`
block removes both on every exit path. -/
theorem C5_cleanup (env : Env) (st : SvcState) (concept : String)
    (quality : Option String) :
    listHas (render_animation env st concept quality).2.2.activeRenders env.filename = false ∧
    listHas (render_animation env st concept quality).2.2.tempDirs (tmpDirOf env.filename) = false :=
  ⟨listHas_filter_ne _ _, listHas_filter_ne _ _⟩

/-! ## C2: escalation eligibility when `usedGeneration` is false -/

/-- C2, counterexample.  A render failure on code with `usedGeneration = false`
returns that failure immediately: the trace shows no pattern repair and no
regeneration stage, refuting "still eligible for pattern repair and
ultimately full regeneration". -/
theorem C2_counterexample :
    renderWithCode envC2 "concept" "low" "template code" false =
      (renderFailResult "E0" "D0" "low", [Stage.render]) := by
  decide

/-- C2, amended.  When a render attempt fails for code with
`usedGeneration = false`, the job is *not* eligible for any repair: it is
marked failed immediately with that attempt's diagnostics (no pattern repair,
no AI repair, no regeneration).  Moreover this situation cannot arise through
`renderAnimation` itself: whenever the generator returns code at all it
returns `usedGeneration = true`. -/
theorem C2_amended :
    (∀ (env : Env) (concept q code e d fl : String),
      qualityFlag q = some fl → env.renders 0 = RenderOutcome.fail e d →
      renderWithCode env concept q code false =
        (renderFailResult e d q, [Stage.render])) ∧
    (∀ (k : Bool) (g : GenEnv) (c s : String),
      (generate_manim_code k g c).1 = some s →
      (generate_manim_code k g c).2 = true) := by
  constructor
  · intro env concept q code e d fl hq hr0
    unfold renderWithCode
    rw [hq, hr0]
    rfl
  · exact generate_used_of_code

/-- C2, witness. -/
theorem C2_witness :
    renderWithCode envC2 "c" "low" "x = 1" false =
      (renderFailResult "E0" "D0" "low", [Stage.render]) ∧
    (generate_manim_code true envC2.gen1 "c").2 = true :=
  ⟨(C2_amended.1 envC2 "c" "low" "x = 1" "E0" "D0" "-ql" rfl rfl),
   C2_amended.2 true envC2.gen1 "c" "x = 1" rfl⟩

/-! ## C3: the "no provider, template path" scenario -/

/-- C3, counterexample.  With no code-completion provider configured (no API
key), `renderAnimation("pythagorean theorem", "low")` does *not* take a
template path: the generator returns no code at all (the template module is
never consulted by the pipeline), so the call returns `success = false` with
error `Failed to generate code template`, no `code` field, and no
`usedGeneration` field — refuting `success = true`, `usedGeneration = false`,
and "code containing a scene entry point". -/
theorem C3_counterexample :
    (render_animation envC3 st0 "pythagorean theorem" (some "low")).1 =
      { success := false, error := some "Failed to generate code template",
        render_quality := some "low" } := by
  decide

/-- C3, amended.  With no code-completion provider configured,
`renderAnimation(concept, "low")` returns `success = false`, error
`Failed to generate code template` and the echoed quality `"low"`; only the
generation stage runs.  (`templates.select_template` exists in the code base
but is dead code: nothing in `render_animation`'s call graph invokes it, so
no deterministic template path exists.) -/
theorem C3_amended (env : Env) (st : SvcState) (concept : String)
    (hkey : env.apiKey = false) :
    (render_animation env st concept (some "low")).1 = genFailResult "low" ∧
    (render_animation env st concept (some "low")).2.1 = [Stage.generate] := by
  have hgen : generate_manim_code env.apiKey env.gen1 concept = (none, false) := by
    unfold generate_manim_code generate_ai_manim_code openrouter_call
    rw [hkey]
    rfl
  constructor <;>
    simp [render_animation, renderPipeline, hgen, resolveQuality]

/-- C3, witness for the amended theorem. -/
theorem C3_witness :
    (render_animation envC3 st0 "pythagorean theorem" (some "low")).1 =
      genFailResult "low" ∧
    (render_animation envC3 st0 "pythagorean theorem" (some "low")).2.1 =
      [Stage.generate] :=
  C3_amended envC3 st0 "pythagorean theorem" rfl

/-! ## C1: tier 3 after a tier 2 that produced no (or unchanged) code -/

/-- C1, counterexample.  A run in which tier 1 (pattern repair) changed the
code, its retry failed, and tier 2's AI repair call produced no code: the job
is marked failed immediately with the tier-1 retry's diagnostics — the trace
ends at the `aiFix` stage, with no `regenerate` stage and no further render
attempt, refuting "tier 3 full regeneration is still attempted, followed by
one render retry". -/
theorem C1_counterexample :
    (render_animation envC1 st0 "concept" (some "low")).1 =
        renderFailResult "E1" "D1" "low" ∧
    (render_animation envC1 st0 "concept" (some "low")).2.1 =
        [Stage.generate, Stage.render, Stage.patternFix, Stage.render, Stage.aiFix] ∧
    envC1.aiFixResp (fix_common_manim_errors "from manim import *\nGOLD" "color error") "D1" =
        none := by
  exact ⟨by decide, by decide, rfl⟩

/-- C1, amended.  Tier 3 full regeneration is reached only when tier 2's AI
repair produced code that was accepted for a render retry and that retry
failed; it is then followed by one render retry and, when that also fails,
the job is marked failed with the *last* attempt's diagnostics.  (When the AI
repair call produces no code — or, after a successful pattern change, code
identical to the pattern output — the job is marked failed immediately and
tier 3 is never attempted, as the counterexample shows.)  Stated here for the
tier chain entered when the pattern repair left the code unchanged. -/
theorem C1_amended (env : Env) (concept q c e0 d0 a e1 d1 nc e2 d2 fl : String) (b : Bool)
    (hgen : generate_manim_code env.apiKey env.gen1 concept = (some c, true))
    (hq : qualityFlag q = some fl)
    (hr0 : env.renders 0 = RenderOutcome.fail e0 d0)
    (hfix : fix_common_manim_errors c d0 = c)
    (hai : openrouter_refine env.apiKey (env.aiFixResp c d0) = some a)
    (hr1 : env.renders 1 = RenderOutcome.fail e1 d1)
    (hregen : generate_manim_code env.apiKey env.gen2 concept = (some nc, b))
    (hr2 : env.renders 2 = RenderOutcome.fail e2 d2) :
    renderPipeline env concept q =
      (renderFailResult e2 d2 q,
       [Stage.generate, Stage.render, Stage.patternFix, Stage.aiFix, Stage.render,
        Stage.regenerate, Stage.render]) := by
  simp only [renderPipeline, renderWithCode, tierAiDirect, regenStep, hgen, hq, hr0, hfix,
    hai, hr1, hregen, hr2]
  simp

/-- C1, witness for the amended theorem. -/
theorem C1_witness :
    renderPipeline envC1w "concept" "low" =
      (renderFailResult "E2" "D2" "low",
       [Stage.generate, Stage.render, Stage.patternFix, Stage.aiFix, Stage.render,
        Stage.regenerate, Stage.render]) :=
  C1_amended envC1w "concept" "low" "x = 1" "E0" "D0" "x = 2" "E1" "D1" "x = 3" "E2" "D2"
    "-ql" true (by decide) rfl rfl (by decide) rfl rfl (by decide) rfl

/-! ## C10: invalid configured default quality -/

/-- C10.  If the configured default quality is not one of low/medium/high and
the caller passes `None` or an invalid quality, no fallback to a valid tier
happens: whenever generation returned code (otherwise the earlier
generation-failure return fires before the lookup), the quality-flag lookup
fails (the `KeyError`), the outer handler returns `success = false` with
error `Internal server error`, `details` the stringified `KeyError`, and the
invalid default echoed in `render_quality`, and no render attempt is made
(the trace stops at the generation stage). -/
theorem C10_keyerror (env : Env) (st : SvcState) (concept : String)
    (quality : Option String) (c : String)
    (hd1 : env.defaultQuality ≠ "low") (hd2 : env.defaultQuality ≠ "medium")
    (hd3 : env.defaultQuality ≠ "high")
    (hq : quality = none ∨
      ∃ s, quality = some s ∧ s ≠ "low" ∧ s ≠ "medium" ∧ s ≠ "high")
    (hgen : (generate_manim_code env.apiKey env.gen1 concept).1 = some c) :
    (render_animation env st concept quality).1 =
      internalErrorResult ("'" ++ env.defaultQuality ++ "'") env.defaultQuality ∧
    (render_animation env st concept quality).2.1 = [Stage.generate] := by
  have hres : resolveQuality env.defaultQuality quality = env.defaultQuality := by
    rcases hq with h | ⟨s, hs, h1, h2, h3⟩
    · rw [h]
      rfl
    · rw [hs]; simp [resolveQuality, h1, h2, h3]
  have hflag : qualityFlag env.defaultQuality = none := by
    simp [qualityFlag, hd1, hd2, hd3]
  rcases hg : generate_manim_code env.apiKey env.gen1 concept with ⟨o, b⟩
  rw [hg] at hgen
  simp only at hgen
  subst hgen
  constructor <;>
    simp [render_animation, renderPipeline, hg, renderWithCode, hres, hflag]

/-- C10, witness. -/
theorem C10_witness :
    (render_animation envC10 st0 "concept" (some "4k")).1 =
      internalErrorResult ("'" ++ envC10.defaultQuality ++ "'") envC10.defaultQuality ∧
    (render_animation envC10 st0 "concept" (some "4k")).2.1 = [Stage.generate] :=
  C10_keyerror envC10 st0 "concept" (some "4k") "x = 1" (by decide) (by decide) (by decide)
    (Or.inr ⟨"4k", rfl, by decide, by decide, by decide⟩) (by decide)

/-! ## C4: lint budget exhaustion does not stop the job -/

/-- When code is in hand and the quality flag resolves, a render attempt is
always made (the trace contains a render stage), whatever its outcome. -/
theorem renderWithCode_render_mem (env : Env) (concept q code : String) (used : Bool)
    (fl : String) (hq : qualityFlag q = some fl) :
    Stage.render ∈ (renderWithCode env concept q code used).2 := by
  unfold renderWithCode
  rw [hq]
  cases h0 : env.renders 0 with
  | ok => simp
  | fail e d =>
    cases used with
    | false => simp
    | true =>
      by_cases hf : fix_common_manim_errors code d = code
      · simp [hf]
      · cases h1 : env.renders 1 <;> simp [hf]

/-- With an API key and a truthy primary provider response, generation always
returns `(some code, true)` with non-empty code — independently of every lint
outcome. -/
theorem generate_with_key (g : GenEnv) (concept p : String)
    (hp : g.primary = some p) (hpne : p ≠ "") :
    ∃ s, generate_manim_code true g concept = (some s, true) ∧ s ≠ "" := by
  have h0 : openrouter_call true g.primary = some p := by
    simp [openrouter_call, hp, truthyOpt, hpne]
  have hl := lint_loop_ne true g 2 p hpne
  refine ⟨lint_repair_loop true g 2 p, ?_, hl⟩
  unfold generate_manim_code generate_ai_manim_code
  rw [h0]
  simp [hl]

/-- C4, amended.  When the static analyzer rejects the code in every
lint-repair round (budget 2), the job does *not* transition to failed and no
`LintFailure` result is surfaced: the generator returns the still-failing
code with `usedGeneration = true` and the orchestrator proceeds to a render
attempt with it. -/
theorem C4_amended (env : Env) (st : SvcState) (concept p : String)
    (hkey : env.apiKey = true) (hp : env.gen1.primary = some p) (hpne : p ≠ "")
    (hlint : ∀ s, (env.gen1.lint s).1 = false) :
    ∃ s, generate_manim_code env.apiKey env.gen1 concept = (some s, true) ∧
      (env.gen1.lint s).1 = false ∧
      Stage.render ∈ (render_animation env st concept (some "low")).2.1 := by
  obtain ⟨s, hg0, hs⟩ := generate_with_key env.gen1 concept p hp hpne
  have hg : generate_manim_code env.apiKey env.gen1 concept = (some s, true) := by
    rw [hkey]; exact hg0
  have hmem := renderWithCode_render_mem env concept "low" s true "-ql" rfl
  exact ⟨s, hg, hlint s, by
    simp [render_animation, renderPipeline, hg, resolveQuality, hmem]⟩

/-- C4, counterexample.  A run whose lint oracle rejects every code text and
whose lint-repair calls produce nothing: after the budget is exhausted the
job still renders — and here succeeds — rather than failing with a
structured `LintFailure` result. -/
theorem C4_counterexample :
    (render_animation envC4 st0 "concept" (some "low")).1.success = true ∧
    (envC4.gen1.lint "X = GOLD").1 = false ∧
    (render_animation envC4 st0 "concept" (some "low")).2.1 =
      [Stage.generate, Stage.render] :=
  ⟨by decide, rfl, by decide⟩

/-- C4, witness for the amended theorem. -/
theorem C4_witness :
    ∃ s, generate_manim_code envC4w.apiKey envC4w.gen1 "concept" = (some s, true) ∧
      (envC4w.gen1.lint s).1 = false ∧
      Stage.render ∈ (render_animation envC4w st0 "concept" (some "low")).2.1 :=
  C4_amended envC4w st0 "concept" "Y = 1" rfl rfl (by decide) (fun _ => rfl)

/-! ## C9: per-item isolation of `renderMultiple` -/

/-- `render_multiple_animations` is the per-concept map of the tagged
outcome. -/
theorem rm_eq_map (concepts : List String) (run : String → Except String RenderResult) :
    render_multiple_animations concepts run =
      concepts.map fun c => tagOutcome c (run c) := by
  induction concepts with
  | nil => rfl
  | cons h t ih =>
    unfold render_multiple_animations at ih ⊢
    simp only [List.map_cons, List.zip_cons_cons, ih]

/-- C9.  `renderMultiple` returns one result per concept in order, each
tagged with its originating concept; a raised exception becomes a
`success = false` entry carrying the exception text; and the `i`-th entry
depends only on the `i`-th job's own outcome (two runners that agree on a
concept produce the same entry for it), so one job's failure cannot affect a
sibling's result. -/
theorem C9_isolation (concepts : List String)
    (run run2 : String → Except String RenderResult) (i : Nat) (c e : String)
    (hc : concepts[i]? = some c) :
    (render_multiple_animations concepts run).length = concepts.length ∧
    (render_multiple_animations concepts run)[i]? = some (tagOutcome c (run c)) ∧
    (run c = Except.error e →
      (render_multiple_animations concepts run)[i]? =
        some { success := false, error := some "Failed to generate animation",
               details := some e, concept := some c }) ∧
    (run c = run2 c →
      (render_multiple_animations concepts run)[i]? =
        (render_multiple_animations concepts run2)[i]?) := by
  have h1 := rm_eq_map concepts run
  have h2 := rm_eq_map concepts run2
  refine ⟨?_, ?_, ?_, ?_⟩
  · rw [h1, List.length_map]
  · rw [h1, List.getElem?_map, hc]; rfl
  · intro herr
    rw [h1, List.getElem?_map, hc]
    simp [tagOutcome, herr]
  · intro heq
    rw [h1, h2, List.getElem?_map, List.getElem?_map, hc]
    simp [heq]

/-- C9, witness. -/
theorem C9_witness :
    (render_multiple_animations ["ok", "bad"] runC9).length = 2 ∧
    (render_multiple_animations ["ok", "bad"] runC9)[1]? =
      some (tagOutcome "bad" (runC9 "bad")) ∧
    (render_multiple_animations ["ok", "bad"] runC9)[1]? =
      some { success := false, error := some "Failed to generate animation",
             details := some "boom", concept := some "bad" } ∧
    (render_multiple_animations ["ok", "bad"] runC9)[1]? =
      (render_multiple_animations ["ok", "bad"] runC9b)[1]? := by
  obtain ⟨h1, h2, h3, h4⟩ :=
    C9_isolation ["ok", "bad"] runC9 runC9b 1 "bad" "boom" (by decide)
  exact ⟨h1, h2, h3 rfl, h4 rfl⟩

/-! ## C6: non-empty code on success -/

theorem csReplaceFuel_ne_nil (pat rep : List Char) (f : Nat) (s : List Char)
    (hrep : rep ≠ []) (hs : s ≠ []) : csReplaceFuel pat rep f s ≠ [] := by
  cases f with
  | zero => exact hs
  | succ f =>
    cases s with
    | nil => exact absurd rfl hs
    | cons c t =>
      unfold csReplaceFuel
      split
      · simp [List.append_eq_nil, hrep]
      · simp

theorem applyPairs_ne_nil : ∀ (pairs : List (List Char × List Char)) (code : List Char),
    (∀ p ∈ pairs, p.2 ≠ []) → code ≠ [] → applyPairs pairs code ≠ [] := by
  intro pairs
  induction pairs with
  | nil => intro code _ hc; exact hc
  | cons p t ih =>
    intro code hreps hc
    have hstep : (if csContains code p.1 then csReplace code p.1 p.2 else code) ≠ [] := by
      by_cases h : csContains code p.1
      · simpa [h, csReplace] using
          csReplaceFuel_ne_nil p.1 p.2 code.length code (hreps p (by simp)) hc
      · simpa [h] using hc
    have := ih _ (fun q hq => hreps q (by simp [hq])) hstep
    simpa [applyPairs, List.foldl_cons] using this

theorem splitNl_ne_nil (s : List Char) : splitNl s ≠ [] := by
  cases s with
  | nil => simp [splitNl]
  | cons c t =>
    unfold splitNl
    rcases h : splitNl t with _ | ⟨h1, r⟩
    · simp
    · by_cases hc : c = '\n' <;> simp [hc]

theorem joinNl_splitNl (s : List Char) : joinNl (splitNl s) = s := by
  induction s with
  | nil => rfl
  | cons c t ih =>
    unfold splitNl
    rcases h : splitNl t with _ | ⟨h1, r⟩
    · exact absurd h (splitNl_ne_nil t)
    · rw [h] at ih
      by_cases hc : c = '\n'
      · subst hc
        simp only [if_pos rfl]
        simpa [joinNl] using ih
      · simp only [hc, if_false]
        cases r with
        | nil =>
          simp [joinNl] at ih ⊢
          exact ih
        | cons r1 r2 =>
          simp [joinNl] at ih ⊢
          exact ih

theorem joinNl_cons₂_ne_nil (a b : List Char) (t : List (List Char)) :
    joinNl (a :: b :: t) ≠ [] := by
  simp [joinNl, List.append_eq_nil]

theorem concatMapL_cons_ne_nil (f : List Char → List (List Char)) (a : List Char)
    (t : List (List Char)) (h : f a ≠ []) : concatMapL f (a :: t) ≠ [] := by
  simp [concatMapL, List.append_eq_nil, h]

theorem joinNl_concatMap_ne_nil (f : List Char → List (List Char)) (s : List Char)
    (hs : s ≠ []) (hf : ∀ l, f l ≠ [])
    (hf1 : ∀ l, l ≠ [] → joinNl (f l) ≠ []) :
    joinNl (concatMapL f (splitNl s)) ≠ [] := by
  rcases h : splitNl s with _ | ⟨l1, r⟩
  · exact absurd h (splitNl_ne_nil s)
  · cases r with
    | nil =>
      have hl1 : l1 = s := by
        have hj := joinNl_splitNl s
        rw [h] at hj
        simpa [joinNl] using hj
      have : concatMapL f [l1] = f l1 := by simp [concatMapL]
      rw [this]
      exact hf1 l1 (hl1 ▸ hs)
    | cons l2 r2 =>
      rcases hfa : f l1 with _ | ⟨x, xs⟩
      · exact absurd hfa (hf l1)
      rcases hr : xs ++ concatMapL f (l2 :: r2) with _ | ⟨b, bs⟩
      · exfalso
        rcases List.append_eq_nil.mp hr with ⟨_, h2⟩
        exact concatMapL_cons_ne_nil f l2 r2 (hf l2) h2
      · have heq : concatMapL f (l1 :: l2 :: r2) = x :: b :: bs := by
          simp only [concatMapL, hfa, List.cons_append]
          rw [← hr]
          rfl
        rw [heq]
        exact joinNl_cons₂_ne_nil _ _ _

theorem joinNl_map_ne_nil (g : List Char → List Char) (s : List Char) (hs : s ≠ [])
    (hg : ∀ l, l ≠ [] → g l ≠ []) : joinNl ((splitNl s).map g) ≠ [] := by
  rcases h : splitNl s with _ | ⟨l1, r⟩
  · exact absurd h (splitNl_ne_nil s)
  · cases r with
    | nil =>
      have hl1 : l1 = s := by
        have hj := joinNl_splitNl s
        rw [h] at hj
        simpa [joinNl] using hj
      simpa [joinNl] using hg l1 (hl1 ▸ hs)
    | cons l2 r2 =>
      simp only [List.map_cons]
      exact joinNl_cons₂_ne_nil _ _ _

theorem gaFixLine_ne_nil (fname rep l : List Char) : gaFixLine fname rep l ≠ [] := by
  unfold gaFixLine
  split
  · split <;> simp
  · simp

theorem joinNl_gaFixLine_ne_nil (fname rep l : List Char) (hl : l ≠ []) :
    joinNl (gaFixLine fname rep l) ≠ [] := by
  unfold gaFixLine
  split
  · split
    · simp [joinNl, List.append_eq_nil]
    · simpa [joinNl] using hl
  · simpa [joinNl] using hl

theorem gaBranch_ne_nil (fname rep code : List Char) (hc : code ≠ []) :
    gaBranch fname rep code ≠ [] :=
  joinNl_concatMap_ne_nil _ code hc (gaFixLine_ne_nil fname rep)
    (joinNl_gaFixLine_ne_nil fname rep)

theorem numpyFixLine_ne_nil (l : List Char) : numpyFixLine l ≠ [] := by
  unfold numpyFixLine
  split <;> simp

theorem joinNl_numpyFixLine_ne_nil (l : List Char) (hl : l ≠ []) :
    joinNl (numpyFixLine l) ≠ [] := by
  unfold numpyFixLine
  split
  · simp [joinNl, List.append_eq_nil]
  · simpa [joinNl] using hl

theorem numpyBranch_ne_nil (code : List Char) (hc : code ≠ []) :
    numpyBranch code ≠ [] :=
  joinNl_concatMap_ne_nil _ code hc numpyFixLine_ne_nil joinNl_numpyFixLine_ne_nil

theorem reSubFuel_ne_nil (m : List Char → Option Nat) (rep : List Char) (f : Nat)
    (s : List Char) (hrep : rep ≠ []) (hs : s ≠ []) : reSubFuel m rep f s ≠ [] := by
  cases f with
  | zero => exact hs
  | succ f =>
    cases s with
    | nil => exact absurd rfl hs
    | cons c t =>
      unfold reSubFuel
      rcases h : m (c :: t) with _ | n <;> simp [h, List.append_eq_nil, hrep]

theorem wrapMainScene_ne_nil (code : List Char) : wrapMainScene code ≠ [] := by
  unfold wrapMainScene
  simp only [ne_eq, List.append_eq_nil, not_and]
  intro h
  exact absurd h (by decide)

theorem mainSceneBranch_ne_nil (code : List Char) (hc : code ≠ []) :
    mainSceneBranch code ≠ [] := by
  unfold mainSceneBranch reSubAll
  dsimp only
  split
  · exact wrapMainScene_ne_nil code
  · exact reSubFuel_ne_nil _ _ _ _ (by decide) hc

theorem rectFixLine_ne_nil (l : List Char) (hl : l ≠ []) : rectFixLine l ≠ [] := by
  unfold rectFixLine
  split
  · simp [List.append_eq_nil]
  · exact hl

theorem squareFixLine_ne_nil (l : List Char) (hl : l ≠ []) : squareFixLine l ≠ [] := by
  unfold squareFixLine
  split
  · split
    · simp [List.append_eq_nil]
    · exact hl
  · exact hl

theorem fixSquareStep_ne_nil (code e : List Char) (hc : code ≠ []) :
    fixSquareStep code e ≠ [] := by
  unfold fixSquareStep
  split
  · dsimp only
    split
    · exact joinNl_map_ne_nil _ code hc squareFixLine_ne_nil
    · exact hc
  · exact hc

theorem fixRectStep_ne_nil (code e : List Char) (hc : code ≠ []) :
    fixRectStep code e ≠ [] := by
  unfold fixRectStep
  split
  · exact joinNl_map_ne_nil _ code hc rectFixLine_ne_nil
  · exact fixSquareStep_ne_nil code e hc

theorem fixSceneStep_ne_nil (code e : List Char) (hc : code ≠ []) :
    fixSceneStep code e ≠ [] := by
  unfold fixSceneStep
  split
  · exact mainSceneBranch_ne_nil code hc
  · exact fixRectStep_ne_nil code e hc

theorem fixMethodStep_ne_nil (code e : List Char) (hc : code ≠ []) :
    fixMethodStep code e ≠ [] := by
  unfold fixMethodStep
  split
  · dsimp only
    split
    · exact applyPairs_ne_nil methodPairs code (by decide) hc
    · exact fixSceneStep_ne_nil code e hc
  · exact fixSceneStep_ne_nil code e hc

theorem fixColorStep_ne_nil (code e : List Char) (hc : code ≠ []) :
    fixColorStep code e ≠ [] := by
  unfold fixColorStep
  split
  · dsimp only
    split
    · exact applyPairs_ne_nil colorPairs code (by decide) hc
    · exact fixMethodStep_ne_nil code e hc
  · exact fixMethodStep_ne_nil code e hc

theorem fixCommonChars_ne_nil (code e : List Char) (hc : code ≠ []) :
    fixCommonChars code e ≠ [] := by
  unfold fixCommonChars
  split
  · exact gaBranch_ne_nil _ _ code hc
  · split
    · exact gaBranch_ne_nil _ _ code hc
    · split
      · exact numpyBranch_ne_nil code hc
      · exact fixColorStep_ne_nil code e hc

theorem fix_common_ne (c e : String) (h : c ≠ "") :
    fix_common_manim_errors c e ≠ "" := by
  have hd : c.data ≠ [] := by
    intro hl
    exact h (String.ext (by simpa using hl))
  intro hx
  apply fixCommonChars_ne_nil c.data e.data hd
  have := congrArg String.data hx
  simpa [fix_common_manim_errors] using this

theorem locateVideo_code (env : Env) (code : String) (u : Bool) (q : String)
    (h : (locateVideo env code u q).success = true) :
    (locateVideo env code u q).code = some code := by
  unfold locateVideo at h ⊢
  by_cases hv : env.videoFound <;> simp [hv, successResult, notFoundResult] at h ⊢

theorem regenStep_code (env : Env) (concept q : String) (idx : Nat) (e d : String)
    (u : Bool) :
    (regenStep env concept q idx e d u).1.success = true →
      ∃ s, (regenStep env concept q idx e d u).1.code = some s ∧ s ≠ "" := by
  unfold regenStep
  rcases hg : generate_manim_code env.apiKey env.gen2 concept with ⟨o, b⟩
  rcases o with _ | nc
  · intro h
    simp [renderFailResult] at h
  · rcases hr : env.renders idx with _ | ⟨e2, d2⟩
    · intro h
      exact ⟨nc, locateVideo_code env nc u q h, generate_code_ne _ _ _ _ (by rw [hg])⟩
    · intro h
      simp [renderFailResult] at h

theorem tierAiAfterPattern_code (env : Env) (concept q fixedCode : String) (u : Bool)
    (e1 d1 : String) :
    (tierAiAfterPattern env concept q fixedCode u e1 d1).1.success = true →
      ∃ s, (tierAiAfterPattern env concept q fixedCode u e1 d1).1.code = some s ∧ s ≠ "" := by
  unfold tierAiAfterPattern
  rcases ha : openrouter_refine env.apiKey (env.aiFixResp fixedCode d1) with _ | ai
  · intro h
    simp [renderFailResult] at h
  · dsimp only
    by_cases hne : ai ≠ fixedCode
    · rw [if_pos hne]
      rcases hr : env.renders 2 with _ | ⟨e2, d2⟩ <;> intro h
      · exact ⟨ai, locateVideo_code env ai u q h, openrouter_refine_ne _ _ _ ha⟩
      · exact regenStep_code env concept q 3 e2 d2 u h
    · rw [if_neg hne]
      intro h
      simp [renderFailResult] at h

theorem tierAiDirect_code (env : Env) (concept q code : String) (u : Bool)
    (e0 d0 : String) :
    (tierAiDirect env concept q code u e0 d0).1.success = true →
      ∃ s, (tierAiDirect env concept q code u e0 d0).1.code = some s ∧ s ≠ "" := by
  unfold tierAiDirect
  rcases ha : openrouter_refine env.apiKey (env.aiFixResp code d0) with _ | ai
  · intro h
    simp [renderFailResult] at h
  · rcases hr : env.renders 1 with _ | ⟨e1, d1⟩
    · intro h
      exact ⟨ai, locateVideo_code env ai u q h, openrouter_refine_ne _ _ _ ha⟩
    · intro h
      exact regenStep_code env concept q 2 e1 d1 u h

theorem renderWithCode_code (env : Env) (concept q code : String) (u : Bool)
    (hc : code ≠ "") :
    (renderWithCode env concept q code u).1.success = true →
      ∃ s, (renderWithCode env concept q code u).1.code = some s ∧ s ≠ "" := by
  unfold renderWithCode
  rcases hq : qualityFlag q with _ | fl
  · intro h
    simp [internalErrorResult] at h
  · rcases hr0 : env.renders 0 with _ | ⟨e0, d0⟩
    · intro h
      exact ⟨code, locateVideo_code env code u q h, hc⟩
    · rcases u with _ | _
      · intro h
        simp [renderFailResult] at h
      · simp only [if_pos rfl]
        by_cases hf : fix_common_manim_errors code d0 ≠ code
        · rw [if_pos hf]
          rcases hr1 : env.renders 1 with _ | ⟨e1, d1⟩ <;> intro h
          · exact ⟨_, locateVideo_code env _ true q h, fix_common_ne code d0 hc⟩
          · exact tierAiAfterPattern_code env concept q _ true e1 d1 h
        · rw [if_neg hf]
          exact tierAiDirect_code env concept q code true e0 d0

/-- C6.  `renderAnimation` never returns `success = true` with an empty or
absent `code` field: every success dictionary carries the current code text,
which is non-empty on every path (generated code is truthiness-checked, the
Pattern Repair Engine preserves non-emptiness, and AI-repaired or regenerated
code is truthiness-checked before use). -/
theorem C6_nonempty_code (env : Env) (st : SvcState) (concept : String)
    (quality : Option String)
    (hs : (render_animation env st concept quality).1.success = true) :
    ∃ s, (render_animation env st concept quality).1.code = some s ∧ s ≠ "" := by
  have hp : (render_animation env st concept quality).1 =
      (renderPipeline env concept (resolveQuality env.defaultQuality quality)).1 := rfl
  rw [hp] at hs ⊢
  revert hs
  unfold renderPipeline
  rcases hg : generate_manim_code env.apiKey env.gen1 concept with ⟨o, b⟩
  rcases o with _ | c
  · intro hs
    simp [genFailResult] at hs
  · exact renderWithCode_code env concept _ c b (generate_code_ne _ _ _ _ (by rw [hg]))

/-- C6, witness. -/
theorem C6_witness :
    ∃ s, (render_animation envOk st0 "concept" (some "low")).1.code = some s ∧ s ≠ "" :=
  C6_nonempty_code envOk st0 "concept" (some "low") (by decide)

/-! ## C7: idempotence of the Pattern Repair Engine -/

/-- C7, counterexample.  The color rule replaces every occurrence of the
substring `PURPLE` by `PURPLE_C`, so code that already uses the replacement
identifier `PURPLE_C` is mutated again by every application: the second
application's output differs from the first's, refuting idempotence. -/
theorem C7_counterexample :
    fix_common_manim_errors "c = Circle(color=PURPLE_C)" "color" =
      "c = Circle(color=PURPLE_C_C)" ∧
    fix_common_manim_errors "c = Circle(color=PURPLE_C_C)" "color" =
      "c = Circle(color=PURPLE_C_C_C)" ∧
    (fix_common_manim_errors
        (fix_common_manim_errors "c = Circle(color=PURPLE_C)" "color") "color" ==
      fix_common_manim_errors "c = Circle(color=PURPLE_C)" "color") = false :=
  ⟨by decide, by decide, by decide⟩

/-- C7, amended.  The engine is a fixed point on already-fixed code only when
no deprecated identifier occurs as a *substring* of the code: for a
diagnostic that triggers the color rule (and matches no earlier rule class),
code containing none of the nine deprecated color names — in particular not
`PURPLE`, which is a substring of its own replacement `PURPLE_C` — is
returned unchanged, so a second application yields output identical to the
first.  Code containing a replacement identifier with a deprecated name as
substring (e.g. `PURPLE_C`) is mutated again on every application. -/
theorem C7_amended (c e : List Char)
    (he1 : csContains e "get_area".data = false)
    (he2 : csContains e "get_riemann_rectangles".data = false)
    (he3 : csContains e "NameError".data = false)
    (he4 : csContains e "MainScene".data = false)
    (he5 : csContains e "Rectangle".data = false)
    (he6 : csContains e "Square".data = false)
    (he8 : csContains (toLowerCs e) "color".data = true)
    (he9 : csContains e "AttributeError".data = false)
    (hc1 : csContains c "GOLD".data = false)
    (hc2 : csContains c "GOLD_A".data = false)
    (hc3 : csContains c "GOLD_B".data = false)
    (hc4 : csContains c "GOLD_C".data = false)
    (hc5 : csContains c "GOLD_D".data = false)
    (hc6 : csContains c "GOLD_E".data = false)
    (hc7 : csContains c "TEAL".data = false)
    (hc8 : csContains c "MAROON".data = false)
    (hc9 : csContains c "PURPLE".data = false) :
    fixCommonChars c e = c ∧
    fixCommonChars (fixCommonChars c e) e = fixCommonChars c e := by
  have happ : applyPairs colorPairs c = c := by
    unfold applyPairs colorPairs
    simp only [List.foldl_cons, List.foldl_nil, hc1, hc2, hc3, hc4, hc5, hc6, hc7, hc8, hc9,
      if_false, Bool.false_eq_true]
  have h1 : fixCommonChars c e = c := by
    unfold fixCommonChars fixColorStep fixMethodStep fixSceneStep fixRectStep fixSquareStep
    simp only [he1, he2, he3, he4, he5, he6, he8, he9, happ, Bool.false_and, Bool.and_false,
      Bool.true_or, Bool.false_or, Bool.false_eq_true, if_false, ne_eq, not_true_eq_false,
      ite_self]
  refine ⟨h1, ?_⟩
  rw [h1]
  exact h1

/-- C7, witness for the amended theorem. -/
theorem C7_witness :
    fixCommonChars "circle = Circle(color=YELLOW)".data "color".data =
        "circle = Circle(color=YELLOW)".data ∧
    fixCommonChars (fixCommonChars "circle = Circle(color=YELLOW)".data "color".data)
        "color".data =
      fixCommonChars "circle = Circle(color=YELLOW)".data "color".data :=
  C7_amended "circle = Circle(color=YELLOW)".data "color".data (by decide) (by decide)
    (by decide) (by decide) (by decide) (by decide) (by decide) (by decide) (by decide)
    (by decide) (by decide) (by decide) (by decide) (by decide) (by decide) (by decide)
    (by decide)

/-! ## C8: the `get_area` lambda rewrite -/

theorem isPrefixOf_append_self (p x : List Char) : p.isPrefixOf (p ++ x) = true := by
  induction p with
  | nil => simp [List.isPrefixOf]
  | cons a t ih => simp [List.isPrefixOf, ih]

theorem csContains_append_self (p x : List Char) : csContains (p ++ x) p = true := by
  have hpre := isPrefixOf_append_self p x
  cases h : p ++ x with
  | nil =>
    rw [h] at hpre
    simp [csContains, hpre]
  | cons c t =>
    rw [h] at hpre
    simp [csContains, hpre]

theorem csContains_cons (c : Char) (t pat : List Char) (h : csContains t pat = true) :
    csContains (c :: t) pat = true := by
  simp [csContains, h]

theorem p2Exists_append (m : List Char → Option Nat) :
    ∀ (pre tail : List Char), (m tail).isSome = true → p2Exists m (pre ++ tail) = true := by
  intro pre
  induction pre with
  | nil =>
    intro tail h
    cases tail with
    | nil => simpa [p2Exists] using h
    | cons c t => simp [p2Exists, h]
  | cons a pre ih =>
    intro tail h
    simp [p2Exists, ih tail h]

theorem reSubFuel_contains (m : List Char → Option Nat) (rep : List Char)
    (hm : m [] = none) :
    ∀ (f : Nat) (s : List Char), s.length ≤ f → p2Exists m s = true →
      csContains (reSubFuel m rep f s) rep = true := by
  intro f
  induction f with
  | zero =>
    intro s hlen hex
    have hnil : s = [] := List.eq_nil_of_length_eq_zero (Nat.le_zero.mp hlen)
    subst hnil
    simp [p2Exists, hm] at hex
  | succ f ih =>
    intro s hlen hex
    cases s with
    | nil => simp [p2Exists, hm] at hex
    | cons c t =>
      unfold reSubFuel
      rcases hmc : m (c :: t) with _ | n
      · have hex' : p2Exists m t = true := by
          simpa [p2Exists, hmc] using hex
        have hlen' : t.length ≤ f := by
          simpa [List.length_cons, Nat.succ_le_succ_iff] using hlen
        exact csContains_cons c _ rep (ih t hlen' hex')
      · exact csContains_append_self rep _

theorem takeWhile_cons_inv (p : Char → Bool) (s : List Char) (a : Char) (t : List Char)
    (h : s.takeWhile p = a :: t) : ∃ r, s = a :: r ∧ p a = true := by
  cases s with
  | nil => simp [List.takeWhile] at h
  | cons b r =>
    rw [List.takeWhile_cons] at h
    by_cases hp : p b
    · simp [hp] at h
      exact ⟨r, by rw [h.1], h.1 ▸ hp⟩
    · simp [hp] at h

theorem notCP_of_pySpace (c : Char) (h : pySpace c = true) : notCP c = true := by
  simp only [notCP, Bool.not_eq_true']
  simp only [Bool.or_eq_false_iff, decide_eq_false_iff_not]
  constructor <;> rintro rfl <;> simp [pySpace] at h

theorem postColonP1_head (s g : List Char) (h : postColonP1 s = some g) :
    ∃ c t, s = c :: t ∧ notCP c = true := by
  have hsp : ∀ (d : Char), (s.takeWhile pySpace).getLast? = some d →
      ∃ c t, s = c :: t ∧ notCP c = true := by
    intro d hlast
    rcases htw : s.takeWhile pySpace with _ | ⟨a, sp⟩
    · rw [htw] at hlast
      simp at hlast
    · obtain ⟨r, hs, hpa⟩ := takeWhile_cons_inv pySpace s a sp htw
      exact ⟨a, r, hs, notCP_of_pySpace a hpa⟩
  unfold postColonP1 at h
  dsimp only at h
  split at h
  · split at h
    · next d hlast => exact hsp d hlast
    · exact absurd h (by simp)
  · next c0 r0 hrest =>
    split at h
    · split at h
      · next d hlast => exact hsp d hlast
      · exact absurd h (by simp)
    · next hcp =>
      rcases htw : s.takeWhile pySpace with _ | ⟨a, sp⟩
      · have hs : s = c0 :: r0 := by
          conv_lhs => rw [← List.takeWhile_append_dropWhile (p := pySpace) (l := s)]
          rw [htw, hrest]
          rfl
        refine ⟨c0, r0, hs, ?_⟩
        simp only [notCP]
        simpa using hcp
      · obtain ⟨r, hs, hpa⟩ := takeWhile_cons_inv pySpace s a sp htw
        exact ⟨a, r, hs, notCP_of_pySpace a hpa⟩

theorem gaP2At_of_gaTail (fname r v r8 g3 : List Char)
    (ht : gaTail fname r = some (v, r8)) (hp : postColonP1 r8 = some g3) :
    (gaP2At fname r).isSome = true := by
  unfold gaP2At
  rw [ht]
  obtain ⟨c0, t0, hr8, hcp⟩ := postColonP1_head r8 g3 hp
  subst hr8
  simp [List.takeWhile_cons, hcp]

theorem gaP1_p2exists (fname s : List Char) (res : List Char × List Char × List Char)
    (h : gaP1At fname s = some res) : p2Exists (gaP2At fname) s = true := by
  unfold gaP1At at h
  dsimp only at h
  split at h
  · exact absurd h (by simp)
  · split at h
    · next r heq =>
      split at h
      · next v r8 hTail =>
        rcases hpc : postColonP1 r8 with _ | g3
        · rw [hpc] at h
          simp at h
        · have h2 := gaP2At_of_gaTail fname r v r8 g3 hTail hpc
          have hs : s = (s.takeWhile pyWord ++ ['.']) ++ r := by
            conv_lhs => rw [← List.takeWhile_append_dropWhile (p := pyWord) (l := s)]
            rw [heq]
            simp
          rw [hs]
          exact p2Exists_append _ _ _ h2
      · exact absurd h (by simp)
    · exact absurd h (by simp)

theorem gaSearch_p2exists (fname : List Char) :
    ∀ (s : List Char) (res : List Char × List Char × List Char),
      gaSearch fname s = some res → p2Exists (gaP2At fname) s = true := by
  intro s
  induction s with
  | nil =>
    intro res h
    simp [gaSearch] at h
  | cons c t ih =>
    intro res h
    unfold gaSearch at h
    rcases hp : gaP1At fname (c :: t) with _ | r1
    · rw [hp] at h
      simp [p2Exists, ih res h]
    · exact gaP1_p2exists fname (c :: t) r1 hp

theorem concatMapL_mem_split (f : List Char → List (List Char)) :
    ∀ (l : List (List Char)) (x : List Char), x ∈ l →
      ∃ pre post, concatMapL f l = pre ++ f x ++ post := by
  intro l
  induction l with
  | nil =>
    intro x hx
    simp at hx
  | cons a t ih =>
    intro x hx
    rcases List.mem_cons.mp hx with h | h
    · subst h
      exact ⟨[], concatMapL f t, by simp [concatMapL]⟩
    · obtain ⟨pre, post, hp⟩ := ih x h
      exact ⟨f a ++ pre, post, by simp [concatMapL, hp]⟩

/-- C8, counterexample.  A `get_area` call that passes an inline lambda but
has no receiver (`get_area(lambda x: x, ...)` rather than
`axes.get_area(...)`) does not match the engine's pattern and is left
completely unchanged — no graph-construction statement is inserted and the
call still passes the lambda — refuting "every get_area call in the code
that passes an inline lambda is rewritten". -/
theorem C8_counterexample :
    fix_common_manim_errors "area = get_area(lambda x: x, x_range=[0, 1])"
        "get_area: 'function' object has no attribute 'points'" =
      "area = get_area(lambda x: x, x_range=[0, 1])" ∧
    strContains "area = get_area(lambda x: x, x_range=[0, 1])" "get_area(lambda" = true ∧
    strContains (fix_common_manim_errors "area = get_area(lambda x: x, x_range=[0, 1])"
        "get_area: 'function' object has no attribute 'points'") ".plot(" = false :=
  ⟨by decide, by decide, by decide⟩

/-- C8, amended.  For a diagnostic containing both trigger substrings, every
*single-line* `get_area` call matching the engine's receiver pattern
`<name>.get_area(lambda <var>: <expr>` is rewritten: in the resulting line
sequence, the rewritten call line (the `re.sub` of the original line, which
contains the literal `get_area(graph`, i.e. references the intermediate
variable instead of the lambda) is immediately preceded by the
graph-construction statement `<indent>graph = <name>.plot(lambda <var>:
<expr>)`, and the whole output is the newline-join of that sequence.
Calls without a receiver, or spanning several lines, are left unchanged
(see the counterexample). -/
theorem C8_amended (code diag line w v g3 : List Char)
    (hg1 : csContains diag "get_area".data = true)
    (hg2 : csContains diag "'function' object has no attribute".data = true)
    (hmem : line ∈ splitNl code)
    (hga : csContains line "get_area".data = true)
    (hlam : csContains line "lambda".data = true)
    (hsearch : gaSearch "get_area".data line = some (w, v, g3)) :
    ∃ pre post,
      fixCommonChars code diag =
        joinNl (pre ++
          ([indentStr (indentOf line) ++ "graph = ".data ++ w ++ ".plot(lambda ".data ++ v
              ++ ": ".data ++ pyRstripCP (pyStrip g3) ++ ")".data,
            reSubAll (gaP2At "get_area".data) "get_area(graph".data line] ++ post)) ∧
      csContains (reSubAll (gaP2At "get_area".data) "get_area(graph".data line)
        "get_area(graph".data = true := by
  have hline : gaFixLine "get_area".data "get_area(graph".data line =
      [indentStr (indentOf line) ++ "graph = ".data ++ w ++ ".plot(lambda ".data ++ v
         ++ ": ".data ++ pyRstripCP (pyStrip g3) ++ ")".data,
       reSubAll (gaP2At "get_area".data) "get_area(graph".data line] := by
    unfold gaFixLine
    simp [hga, hlam, hsearch]
  obtain ⟨pre, post, hsplit⟩ :=
    concatMapL_mem_split (gaFixLine "get_area".data "get_area(graph".data)
      (splitNl code) line hmem
  rw [hline] at hsplit
  refine ⟨pre, post, ?_, ?_⟩
  · unfold fixCommonChars
    rw [if_pos (by simp [hg1, hg2])]
    unfold gaBranch
    rw [hsplit]
    simp [List.append_assoc]
  · have hex := gaSearch_p2exists "get_area".data line (w, v, g3) hsearch
    simpa [reSubAll] using
      reSubFuel_contains (gaP2At "get_area".data) "get_area(graph".data (by decide)
        line.length line (le_refl _) hex

/-- C8, witness for the amended theorem. -/
theorem C8_witness :
    ∃ pre post,
      fixCommonChars "        area = axes.get_area(lambda x: x**2, x_range=[0, 1])".data
          "get_area: 'function' object has no attribute 'points'".data =
        joinNl (pre ++
          ([indentStr (indentOf
                "        area = axes.get_area(lambda x: x**2, x_range=[0, 1])".data)
              ++ "graph = ".data ++ "axes".data ++ ".plot(lambda ".data ++ "x".data
              ++ ": ".data ++ pyRstripCP (pyStrip "x**2".data) ++ ")".data,
            reSubAll (gaP2At "get_area".data) "get_area(graph".data
              "        area = axes.get_area(lambda x: x**2, x_range=[0, 1])".data] ++ post)) ∧
      csContains (reSubAll (gaP2At "get_area".data) "get_area(graph".data
          "        area = axes.get_area(lambda x: x**2, x_range=[0, 1])".data)
        "get_area(graph".data = true :=
  C8_amended "        area = axes.get_area(lambda x: x**2, x_range=[0, 1])".data
    "get_area: 'function' object has no attribute 'points'".data
    "        area = axes.get_area(lambda x: x**2, x_range=[0, 1])".data
    "axes".data "x".data "x**2".data (by decide) (by decide) (by decide) (by decide)
    (by decide) (by decide)
